import Mathlib

/-!
Verification of the firefly-fabconnect event-stream subsystem.

This file gives a shallow embedding, in Lean 4, of the event-stream code of
the `events` package (the subscription manager REST layer and the per-stream
pipeline: `newEventStream`, `update`, `resume`, `stop`, `batchDispatcher`,
`batchProcessor`, `processBatch`, the poller checkpoint pass and
`isAddressUnsafe`), together with theorems settling the frozen claims about
that code.  Go `uint64` fields are modelled as `Nat` (the code only compares
and assigns them; the one subtraction is proved to never underflow), Go maps
as association lists, Go channels and goroutine liveness as explicit boolean
fields of a state record, and Go runtime panics as an explicit error result.
-/

/-- Go runtime faults that the modelled code can raise. -/
inductive GoPanic where
  /-- `close` of an already-closed channel. -/
  | closeOfClosedChannel
  /-- index on a nil slice, e.g. `ip4[0]` when `To4()` returned nil. -/
  | nilSliceIndex
deriving Repr, DecidableEq

/-- Errors produced by the event-stream code (the `errors.Errorf` catalogue
entries used in the embedded functions). -/
inductive ESError where
  | noID
  | invalidActionType
  | invalidDistributionMode
  | webhookNoURL
  | webhookInvalidURL
  | cannotUpdateType
  | resumeActive
deriving Repr, DecidableEq

/-- Go struct `webhookActionInfo`: webhook sub-configuration of a stream. -/
structure WebhookInfo where
  url : String
  headers : List (String × String)
  tlsSkipHostVerify : Bool
  requestTimeoutSec : Nat
deriving Repr, DecidableEq

/-- Go struct `webSocketActionInfo`: websocket sub-configuration of a stream.
`DistributionMode` is a string type in the source. -/
structure WebSocketInfo where
  topic : String
  distributionMode : String
deriving Repr, DecidableEq

/-- Go struct `StreamInfo`: identity and configuration of one event stream. -/
structure StreamInfo where
  id : String
  name : String
  path : String
  suspended : Bool
  type : String
  batchSize : Nat
  batchTimeoutMS : Nat
  errorHandling : String
  retryTimeoutSec : Nat
  blockedRetryDelaySec : Nat
  webhook : Option WebhookInfo
  websocket : Option WebSocketInfo
  timestamps : Bool
  timestampCacheSize : Int
  createdISO8601 : String
deriving Repr, DecidableEq

/-- Constant `MaxBatchSize`: the maximum that a user can specify for their batch size. -/
def MaxBatchSize : Nat := 1000

/-- The `ErrorHandlingBlock` constant of the source. -/
def ErrorHandlingBlock : String := "block"

/-- The `ErrorHandlingSkip` constant of the source. -/
def ErrorHandlingSkip : String := "skip"

/-- Modelled from the spec: Go `net/url.Parse` (standard library, not under
src/).  Parsing fails on URLs containing ASCII control characters; ordinary
URLs parse fine.  Only the success or failure of the parse is used by the
embedded code. -/
def goURLParseOk (s : String) : Bool :=
  s.toList.all (fun c => 32 ≤ c.toNat)

/-- Function `validateWebSocket`: a distribution mode, when present, must be
`broadcast` or `workloadDistribution`. -/
def validateWebSocket (w : WebSocketInfo) : Option ESError :=
  if w.distributionMode ≠ "" ∧ w.distributionMode ≠ "broadcast" ∧
      w.distributionMode ≠ "workloadDistribution" then
    some ESError.invalidDistributionMode
  else
    none

/-- Modelled from the spec: `newWebhookAction` (its source file is not under
src/).  Per the spec, the webhook sub-config carries the target `url`, which
must be present and parseable. -/
def newWebhookAction (w : Option WebhookInfo) : Option ESError :=
  match w with
  | none => some ESError.webhookNoURL
  | some w =>
    if w.url = "" then some ESError.webhookNoURL
    else if goURLParseOk w.url = false then some ESError.webhookInvalidURL
    else none

/-- Modelled from the spec: `newWebSocketAction` (its source file is not
under src/).  The spec gives no creation-time failure for the websocket
action: an empty distribution mode means broadcast. -/
def newWebSocketAction (_w : Option WebSocketInfo) : Option ESError :=
  none

/-- Go `strings.ToLower` (standard library, not under src/), modelled at the
ASCII level: uppercase ASCII letters are lowered, every other character is
kept.  The embedded code only compares the result against the ASCII literals
`block`, `webhook` and `websocket`. -/
def goToLower (s : String) : String :=
  String.mk (s.data.map (fun c =>
    if 65 ≤ c.toNat ∧ c.toNat ≤ 90 then Char.ofNat (c.toNat + 32) else c))

/-- The normalisation of a `StreamInfo` performed at the top of
`newEventStream`: default and clamp `batchSize`, default `batchTimeoutMS`,
`blockedRetryDelaySec`, `timestampCacheSize`, and canonicalise
`errorHandling`. -/
def normalizeSpec (spec : StreamInfo) : StreamInfo :=
  { spec with
    batchSize :=
      if spec.batchSize = 0 then 1
      else if spec.batchSize > MaxBatchSize then MaxBatchSize
      else spec.batchSize
    batchTimeoutMS := if spec.batchTimeoutMS = 0 then 5000 else spec.batchTimeoutMS
    blockedRetryDelaySec :=
      if spec.blockedRetryDelaySec = 0 then 30 else spec.blockedRetryDelaySec
    errorHandling :=
      if (goToLower spec.errorHandling) = ErrorHandlingBlock then ErrorHandlingBlock
      else ErrorHandlingSkip
    timestampCacheSize :=
      if spec.timestampCacheSize = 0 then 1000 else spec.timestampCacheSize }

/-- Function `newEventStream`: validates the id, normalises the spec, lowercases the
type and dispatches on it to construct the action.  Returns the stored spec
(the struct that the constructed stream points at). -/
def newEventStream (spec0 : StreamInfo) : Except ESError StreamInfo :=
  if spec0.id = "" then Except.error ESError.noID
  else
    let spec1 := normalizeSpec spec0
    let spec := { spec1 with type := goToLower spec1.type }
    if spec.type = "webhook" then
      match newWebhookAction spec.webhook with
      | some e => Except.error e
      | none => Except.ok spec
    else if spec.type = "websocket" then
      match spec.websocket with
      | some w =>
        match validateWebSocket w with
        | some e => Except.error e
        | none =>
          match newWebSocketAction spec.websocket with
          | some e => Except.error e
          | none => Except.ok spec
      | none =>
        match newWebSocketAction spec.websocket with
        | some e => Except.error e
        | none => Except.ok spec
    else Except.error ESError.invalidActionType

/-- Runtime state of one `eventStream`: the spec it points at, the lifecycle
flags guarded by `batchCond`, whether the event channel and the
`updateInterrupt` channel have been closed, and which of the three handler
goroutines (poller, dispatcher, processor) are running. -/
structure ESState where
  spec : StreamInfo
  stopped : Bool
  channelClosed : Bool
  processorDone : Bool
  pollerDone : Bool
  updateInProgress : Bool
  interruptClosed : Bool
  pollerRunning : Bool
  processorRunning : Bool
  dispatcherRunning : Bool
  inFlight : Nat
deriving Repr, DecidableEq

/-- The goroutine-liveness and update flags of a stream state, bundled for
statements that assert they are preserved or set. -/
def flagsOf (s : ESState) : Bool × Bool × Bool × Bool × Bool :=
  (s.updateInProgress, s.interruptClosed, s.pollerRunning, s.processorRunning,
    s.dispatcherRunning)

/-- The combined effect, on the stream state, of `preUpdateStream` (sets
`updateInProgress` and broadcasts), `close(a.updateInterrupt)` and
`a.updateWG.Wait()`: all three handler goroutines observe the interrupt and
exit, the poller and processor defers set their done flags. -/
def esStopHandlers (s : ESState) : ESState :=
  { s with
    updateInProgress := true
    interruptClosed := true
    pollerRunning := false
    processorRunning := false
    dispatcherRunning := false
    pollerDone := true
    processorDone := true }

/-- Function `postUpdateStream`: resets the done and update flags and restarts all
three handler goroutines via `startEventHandlers(false)`, which also makes a
fresh (open) `updateInterrupt` channel. -/
def postUpdateStream (s : ESState) : ESState :=
  { s with
    pollerDone := false
    processorDone := false
    updateInProgress := false
    interruptClosed := false
    pollerRunning := true
    processorRunning := true
    dispatcherRunning := true }

/-- The webhook section of `eventStream.update`: only entered when the stream
type is `webhook` and the new spec carries a webhook config; validates the
URL, defaults `requestTimeoutSec`, and copies the four webhook fields. -/
def esUpdateWebhook (s : ESState) (n : StreamInfo) : ESState × Option ESError :=
  match (if s.spec.type = "webhook" then n.webhook else none) with
  | none => (s, none)
  | some w =>
    if w.url = "" then (s, some ESError.webhookNoURL)
    else if goURLParseOk w.url = false then (s, some ESError.webhookInvalidURL)
    else
      let rts := if w.requestTimeoutSec = 0 then 120 else w.requestTimeoutSec
      let nw : WebhookInfo :=
        { url := w.url, headers := w.headers,
          tlsSkipHostVerify := w.tlsSkipHostVerify, requestTimeoutSec := rts }
      ({ s with spec := { s.spec with webhook := some nw } }, none)

/-- The websocket section of `eventStream.update`: copies the topic first,
then validates the distribution mode (so a failed validation leaves the topic
already copied), then copies the distribution mode. -/
def esUpdateWebsocket (s : ESState) (n : StreamInfo) : ESState × Option ESError :=
  match (if s.spec.type = "websocket" then n.websocket else none) with
  | none => (s, none)
  | some w =>
    let old := match s.spec.websocket with
      | some o => o
      | none => { topic := "", distributionMode := "" }
    let mid : WebSocketInfo := { old with topic := w.topic }
    let s1 := { s with spec := { s.spec with websocket := some mid } }
    match validateWebSocket w with
    | some e => (s1, some e)
    | none =>
      let nw : WebSocketInfo := { topic := w.topic, distributionMode := w.distributionMode }
      ({ s1 with spec := { s1.spec with websocket := some nw } }, none)

/-- The scalar-field section of `eventStream.update`: `batchSize` changes
only when non-zero, different and strictly below `MaxBatchSize`;
`batchTimeoutMS` and `blockedRetryDelaySec` when non-zero and different;
`errorHandling` is recanonicalised unconditionally; `name` when non-empty and
different; `timestamps` always tracks the new spec. -/
def esUpdateFields (s : ESState) (n : StreamInfo) : ESState :=
  let sp := s.spec
  let sp := if sp.batchSize ≠ n.batchSize ∧ n.batchSize ≠ 0 ∧ n.batchSize < MaxBatchSize
    then { sp with batchSize := n.batchSize } else sp
  let sp := if sp.batchTimeoutMS ≠ n.batchTimeoutMS ∧ n.batchTimeoutMS ≠ 0
    then { sp with batchTimeoutMS := n.batchTimeoutMS } else sp
  let sp := if sp.blockedRetryDelaySec ≠ n.blockedRetryDelaySec ∧ n.blockedRetryDelaySec ≠ 0
    then { sp with blockedRetryDelaySec := n.blockedRetryDelaySec } else sp
  let sp := { sp with errorHandling :=
    if (goToLower n.errorHandling) = ErrorHandlingBlock then ErrorHandlingBlock
    else ErrorHandlingSkip }
  let sp := if n.name ≠ "" ∧ sp.name ≠ n.name then { sp with name := n.name } else sp
  let sp := { sp with timestamps := n.timestamps }
  { s with spec := sp }

/-- The body of `eventStream.update` after the handlers have been stopped:
the type-immutability check, then the webhook, websocket and scalar sections,
then `postUpdateStream` on success.  An error return leaves the stream in
whatever state the sections reached. -/
def esUpdateBody (s : ESState) (n : StreamInfo) : ESState × Option ESError :=
  if n.type ≠ "" ∧ n.type ≠ s.spec.type then (s, some ESError.cannotUpdateType)
  else
    match esUpdateWebhook s n with
    | (s1, some e) => (s1, some e)
    | (s1, none) =>
      match esUpdateWebsocket s1 n with
      | (s2, some e) => (s2, some e)
      | (s2, none) => (postUpdateStream (esUpdateFields s2 n), none)

/-- Function `eventStream.update`: runs `preUpdateStream`, closes `updateInterrupt`
(a Go panic if it is already closed, as after a previously failed update),
waits for the handlers to exit, then applies the update body. -/
def esUpdate (s : ESState) (n : StreamInfo) : Except GoPanic (ESState × Option ESError) :=
  if s.interruptClosed then Except.error GoPanic.closeOfClosedChannel
  else Except.ok (esUpdateBody (esStopHandlers s) n)

/-- Function `eventStream.stop`: sets `stopped` and closes the event channel (a Go
panic if the channel is already closed). -/
def esStop (s : ESState) : Except GoPanic ESState :=
  if s.channelClosed then Except.error GoPanic.closeOfClosedChannel
  else Except.ok { s with stopped := true, channelClosed := true }

/-- Function `eventStream.suspend`: sets the `Suspended` flag and broadcasts. -/
def esSuspend (s : ESState) : ESState :=
  { s with spec := { s.spec with suspended := true } }

/-- Function `eventStream.resume`: fails unless both `processorDone` and `pollerDone`;
otherwise clears `Suspended`, resets the done flags and restarts the poller
and processor via `startEventHandlers(true)` (which makes a fresh interrupt
channel and does not start the dispatcher). -/
def esResume (s : ESState) : ESState × Option ESError :=
  if s.processorDone = false ∨ s.pollerDone = false then
    (s, some ESError.resumeActive)
  else
    ({ s with
        spec := { s.spec with suspended := false }
        processorDone := false
        pollerDone := false
        interruptClosed := false
        pollerRunning := true
        processorRunning := true }, none)

/-- Lookup in a Go `map[string]uint64`: a missing key reads as the zero
value, exactly as `checkpoint[sub.info.ID]` does in the poller. -/
def cpLookup (cp : List (String × Nat)) (k : String) : Nat :=
  match cp with
  | [] => 0
  | (k1, v) :: rest => if k1 = k then v else cpLookup rest k

/-- Assignment `checkpoint[k] = v` on the association-list model of the Go
map: replace the existing entry for `k`, or append one. -/
def cpInsert (cp : List (String × Nat)) (k : String) (v : Nat) : List (String × Nat) :=
  match cp with
  | [] => [(k, v)]
  | (k1, v1) :: rest =>
    if k1 = k then (k, v) :: rest else (k1, v1) :: cpInsert rest k v

/-- One iteration of the checkpoint-recording loop body of `eventPoller`:
`i1 := checkpoint[sub.info.ID]; i2 := sub.blockHWM(); changed = changed ||
i1 == 0 || i1 != i2; checkpoint[sub.info.ID] = i2`.  A subscription is
modelled as its id paired with its current `blockHWM`. -/
def checkpointStep (acc : Bool × List (String × Nat)) (sub : String × Nat) :
    Bool × List (String × Nat) :=
  let i1 := cpLookup acc.2 sub.1
  let i2 := sub.2
  ((acc.1 || decide (i1 = 0) || decide (¬ i1 = i2)), cpInsert acc.2 sub.1 i2)

/-- The checkpoint-recording pass of one `eventPoller` iteration (run only
when the checkpoint is loaded, i.e. non-nil): folds the loop body over the
subscriptions of the stream; `storeCheckpoint` is then invoked exactly when
the returned flag is true. -/
def pollerCheckpointPass (cp : List (String × Nat)) (subs : List (String × Nat)) :
    Bool × List (String × Nat) :=
  subs.foldl checkpointStep (false, cp)

/-- Go struct `eventData.event`: the entry flowing through the pipeline.  Only the
fields the embedded code reads are kept. -/
structure EventEntry where
  subID : String
  blockNumber : Nat
deriving Repr, DecidableEq

/-- Combined state of the `batchDispatcher` and `batchProcessor` pair of one
stream: the batch being formed, the `inFlight` counter, the queue of
dispatched batches, and two ghost tallies — events accepted from the event
channel and events in batches marked processed. -/
structure PipeState where
  currentBatch : List EventEntry
  inFlight : Nat
  batchQueue : List (List EventEntry)
  accepted : Nat
  processedEv : Nat
  abortedEv : Nat
deriving Repr, DecidableEq

/-- The observable steps of the dispatcher and processor: the dispatcher
accepts an event from the channel, the dispatcher flushes the current batch
on `batchTimeoutMS` expiry, or the processor pops the front batch and runs
`processBatch` on it (which marks it processed, or aborts without a
decrement when the stream is suspended or stopped meanwhile). -/
inductive PipeStep where
  | recv (e : EventEntry)
  | timeoutFlush
  | process (ok : Bool)
deriving Repr, DecidableEq

/-- One step of the pipeline, from `batchDispatcher` and
`batchProcessor`/`processBatch`.  On `recv`, the event joins the current
batch; the dispatcher then flushes when the batch reached `batchSize`
(incrementing `inFlight` on the way, the `if !timeout` branch) and otherwise
just increments `inFlight` (the else branch).  On `timeoutFlush` (possible
only with a non-empty current batch) the batch is queued without an
increment.  On `process`, the front batch leaves the queue; when
`processBatch` marks it processed, `inFlight` drops by the batch length. -/
def stepPipe (batchSize : Nat) (s : PipeState) : PipeStep → PipeState
  | PipeStep.recv e =>
    let batch := s.currentBatch ++ [e]
    if batch.length = batchSize then
      { s with
        currentBatch := []
        inFlight := s.inFlight + 1
        batchQueue := s.batchQueue ++ [batch]
        accepted := s.accepted + 1 }
    else
      { s with
        currentBatch := batch
        inFlight := s.inFlight + 1
        accepted := s.accepted + 1 }
  | PipeStep.timeoutFlush =>
    if s.currentBatch.isEmpty then s
    else
      { s with currentBatch := [], batchQueue := s.batchQueue ++ [s.currentBatch] }
  | PipeStep.process ok =>
    match s.batchQueue with
    | [] => s
    | b :: rest =>
      if ok then
        { s with
          batchQueue := rest
          inFlight := s.inFlight - b.length
          processedEv := s.processedEv + b.length }
      else
        { s with batchQueue := rest, abortedEv := s.abortedEv + b.length }

/-- The pipeline state of a fresh stream. -/
def initPipeState : PipeState :=
  { currentBatch := []
    inFlight := 0
    batchQueue := []
    accepted := 0
    processedEv := 0
    abortedEv := 0 }

/-- Run a finite sequence of dispatcher and processor steps from a fresh
stream. -/
def runPipe (batchSize : Nat) (steps : List PipeStep) : PipeState :=
  steps.foldl (stepPipe batchSize) initPipeState

/-- The `cbs` map of `processBatch`: fold the events of a batch, keyed by
`SubID`, the later event replacing the earlier. -/
def insertLast (m : List (String × EventEntry)) (k : String) (v : EventEntry) :
    List (String × EventEntry) :=
  match m with
  | [] => [(k, v)]
  | (k1, v1) :: rest =>
    if k1 = k then (k, v) :: rest else (k1, v1) :: insertLast rest k v

/-- Assignment `cbs[event.event.SubID] = event` folded over the batch: for each
distinct subscription id, the last event of that subscription in batch
order. -/
def lastPerSub (events : List EventEntry) : List (String × EventEntry) :=
  events.foldl (fun m e => insertLast m e.subID e) []

/-- Lookup in the `cbs` map model. -/
def lookupCb (m : List (String × EventEntry)) (k : String) : Option EventEntry :=
  match m with
  | [] => none
  | (k1, v) :: rest => if k1 = k then some v else lookupCb rest k

/-- The tail of `processBatch` once its retry loop has exited, given whether
`suspendOrStop()` holds and whether the batch was marked processed: an empty
batch returns immediately; `inFlight` is decremented by the batch length
when processed; unless suspended or stopped, the `batchComplete` callback is
invoked once per entry of the `cbs` map.  The returned list is the list of
events whose callbacks are invoked. -/
def processBatchFinish (suspendOrStop : Bool) (processed : Bool)
    (inFlight : Nat) (events : List EventEntry) : Nat × List EventEntry :=
  if events.isEmpty then (inFlight, [])
  else
    let inF := if processed then inFlight - events.length else inFlight
    if suspendOrStop then (inF, [])
    else (inF, (lastPerSub events).map Prod.snd)

/-- Go `net.IP.To4` (standard library): the 4-byte form of an IP, i.e. the
address itself when 4 bytes long, the low 4 bytes of a 16-byte
IPv4-in-IPv6-mapped address, and nil (`none`) otherwise. -/
def goTo4 (ip : List Nat) : Option (List Nat) :=
  if ip.length = 4 then some ip
  else if ip.length = 16 ∧ (ip.take 10).all (fun b => b = 0) ∧
      ip.getD 10 0 = 255 ∧ ip.getD 11 0 = 255 then
    some (ip.drop 12)
  else none

/-- Function `eventStream.isAddressUnsafe`: with `allowPrivateIPs` set, the `&&`
short-circuits to false before the slice is indexed; otherwise `ip4[0]`
panics when `To4()` returned nil, and else the private/loopback/multicast
ranges are tested. -/
def isAddressUnsafe (allowPrivateIPs : Bool) (ip : List Nat) : Option Bool :=
  if allowPrivateIPs then some false
  else
    match goTo4 ip with
    | none => none
    | some ip4 =>
      let b0 := ip4.getD 0 0
      let b1 := ip4.getD 1 0
      some (decide (b0 = 0) || decide (224 ≤ b0) || decide (b0 = 127) ||
        decide (b0 = 10) || (decide (b0 = 172) && decide (16 ≤ b1) && decide (b1 < 32)) ||
        (decide (b0 = 192) && decide (b1 = 168)))

/-- The cause of a `restutil.RestError` in the embedded REST handlers. -/
inductive RestCause where
  | notFound
  | invalidBody
  | streamError (e : ESError)
deriving Repr, DecidableEq

/-- Go struct `restutil.RestError`: an error message cause paired with the HTTP status
code passed to `NewRestError`. -/
structure RestError where
  cause : RestCause
  status : Nat
deriving Repr, DecidableEq

/-- Minimal state of one `subscription` (its own source file is not under
src/): its id and whether its ledger listener has been unregistered. -/
structure SubState where
  id : String
  unsubscribed : Bool
deriving Repr, DecidableEq

/-- Modelled from the spec: `subscription.close` (its source file is not
under src/) unregisters the ledger listener of the subscription. -/
def subClose (sub : SubState) : SubState :=
  { sub with unsubscribed := true }

/-- State of the `subscriptionMGR`: the stream registry, the subscription
registry, the persisted records in the KV store, and the store lifecycle
flags (`s.db != nil` and `s.closed`). -/
structure MgrState where
  streams : List (String × ESState)
  subs : List SubState
  db : List (String × StreamInfo)
  dbOpen : Bool
  closed : Bool
deriving Repr, DecidableEq

/-- Lookup `s.streams[id]` of the manager. -/
def lookupES (l : List (String × ESState)) (id : String) : Option ESState :=
  match l with
  | [] => none
  | (k, v) :: rest => if k = id then some v else lookupES rest id

/-- In-place mutation of the stream object registered under `id` (the Go
code mutates the stream through a pointer held in the map). -/
def replaceES (l : List (String × ESState)) (id : String) (v : ESState) :
    List (String × ESState) :=
  match l with
  | [] => []
  | (k, v1) :: rest =>
    if k = id then (k, v) :: rest else (k, v1) :: replaceES rest id v

/-- Function `storeStream`: `s.db.Put(spec.ID, ...)` on the association-list model of
the KV store. -/
def dbPut (db : List (String × StreamInfo)) (k : String) (v : StreamInfo) :
    List (String × StreamInfo) :=
  match db with
  | [] => [(k, v)]
  | (k1, v1) :: rest =>
    if k1 = k then (k, v) :: rest else (k1, v1) :: dbPut rest k v

/-- Function `subscriptionMGR.UpdateStream`: look the stream up (404 when missing),
decode the body (400 when invalid, modelled as `none`), run
`eventStream.update` (500 on its error, with the stream left as the update
left it), then persist the updated spec. -/
def UpdateStream (m : MgrState) (streamId : String) (body : Option StreamInfo) :
    Except GoPanic (MgrState × Except RestError StreamInfo) :=
  match lookupES m.streams streamId with
  | none => Except.ok (m, Except.error { cause := RestCause.notFound, status := 404 })
  | some s =>
    match body with
    | none => Except.ok (m, Except.error { cause := RestCause.invalidBody, status := 400 })
    | some n =>
      match esUpdate s n with
      | Except.error p => Except.error p
      | Except.ok (s1, some e) =>
        Except.ok ({ m with streams := replaceES m.streams streamId s1 },
          Except.error { cause := RestCause.streamError e, status := 500 })
      | Except.ok (s1, none) =>
        Except.ok ({ m with
            streams := replaceES m.streams streamId s1
            db := dbPut m.db s1.spec.id s1.spec },
          Except.ok s1.spec)

/-- Function `subscriptionMGR.ResumeStream`: look the stream up (404 when missing),
run `eventStream.resume` (500 on its error), persist the spec and answer
with the id/resumed map. -/
def ResumeStream (m : MgrState) (streamId : String) :
    MgrState × Except RestError (List (String × String)) :=
  match lookupES m.streams streamId with
  | none => (m, Except.error { cause := RestCause.notFound, status := 404 })
  | some s =>
    match esResume s with
    | (s1, some e) =>
      ({ m with streams := replaceES m.streams streamId s1 },
        Except.error { cause := RestCause.streamError e, status := 500 })
    | (s1, none) =>
      ({ m with
          streams := replaceES m.streams streamId s1
          db := dbPut m.db s1.spec.id s1.spec },
        Except.ok [("id", streamId), ("resumed", "true")])

/-- The stream-stopping loop of `subscriptionMGR.Close`: `stream.stop()` on
every registered stream; a Go panic (close of an already-closed event
channel) aborts the call. -/
def closeStreams (l : List (String × ESState)) :
    Except GoPanic (List (String × ESState)) :=
  match l with
  | [] => Except.ok []
  | (k, s) :: rest =>
    match esStop s with
    | Except.error p => Except.error p
    | Except.ok s1 =>
      match closeStreams rest with
      | Except.error p => Except.error p
      | Except.ok rest1 => Except.ok ((k, s1) :: rest1)

/-- Function `subscriptionMGR.Close`: stop every stream, close every subscription,
close the KV store unless already closed, and mark the manager closed. -/
def mgrClose (m : MgrState) : Except GoPanic MgrState :=
  match closeStreams m.streams with
  | Except.error p => Except.error p
  | Except.ok streams1 =>
    let subs1 := m.subs.map subClose
    let dbOpen1 := if m.closed = false ∧ m.dbOpen then false else m.dbOpen
    Except.ok { streams := streams1
                subs := subs1
                db := m.db
                dbOpen := dbOpen1
                closed := true }

/-- The pipeline invariant maintained by the dispatcher and processor: the
`inFlight` counter accounts exactly for the events in the batch being
formed, the queued batches and the batches aborted by suspend/stop, and the
accepted tally splits into in-flight plus processed. -/
def pipeInv (s : PipeState) : Prop :=
  s.inFlight = s.currentBatch.length + (s.batchQueue.map List.length).sum + s.abortedEv
  ∧ s.accepted = s.inFlight + s.processedEv

/-- Projection used to evaluate `eventStream.update` at concrete inputs: the
resulting `batchSize` when the update succeeded. -/
def updOkBatchSize (r : Except GoPanic (ESState × Option ESError)) : Option Nat :=
  match r with
  | Except.ok (s, none) => some s.spec.batchSize
  | _ => none

/-- Projection: the Go panic produced by a manager `Close` call, if any. -/
def panicOf (r : Except GoPanic MgrState) : Option GoPanic :=
  match r with
  | Except.error p => some p
  | Except.ok _ => none

/-- Projection: the HTTP status of a failed `UpdateStream` call. -/
def updRestStatus (r : Except GoPanic (MgrState × Except RestError StreamInfo)) :
    Option Nat :=
  match r with
  | Except.ok (_, Except.error e) => some e.status
  | _ => none

/-- Projection: the manager state after an `UpdateStream` call that did not
panic. -/
def updMgrAfter (r : Except GoPanic (MgrState × Except RestError StreamInfo)) :
    Option MgrState :=
  match r with
  | Except.ok (m, _) => some m
  | Except.error _ => none

/-- A concrete webhook configuration. -/
def whInfo : WebhookInfo :=
  { url := "http://example.com", headers := [], tlsSkipHostVerify := false,
    requestTimeoutSec := 60 }

/-- A concrete websocket configuration. -/
def wsInfo : WebSocketInfo :=
  { topic := "t1", distributionMode := "broadcast" }

/-- A concrete stream spec of the given type, as stored after creation. -/
def demoSpec (t : String) : StreamInfo :=
  { id := "es-1"
    name := "s1"
    path := "/eventstreams/es-1"
    suspended := false
    type := t
    batchSize := 1
    batchTimeoutMS := 5000
    errorHandling := "skip"
    retryTimeoutSec := 0
    blockedRetryDelaySec := 30
    webhook := if t = "webhook" then some whInfo else none
    websocket := if t = "websocket" then some wsInfo else none
    timestamps := false
    timestampCacheSize := 1000
    createdISO8601 := "2021-01-01T00:00:00Z" }

/-- A concrete running stream of the given type: handlers running, channels
open, nothing in flight. -/
def runningStream (t : String) : ESState :=
  { spec := demoSpec t
    stopped := false
    channelClosed := false
    processorDone := false
    pollerDone := false
    updateInProgress := false
    interruptClosed := false
    pollerRunning := true
    processorRunning := true
    dispatcherRunning := true
    inFlight := 0 }

/-- A concrete manager holding one running webhook stream. -/
def c1Mgr : MgrState :=
  { streams := [("es-1", runningStream "webhook")]
    subs := []
    db := [("es-1", demoSpec "webhook")]
    dbOpen := true
    closed := false }

/-- A concrete update body whose `type` differs from the stream type. -/
def c1NewSpec : StreamInfo := demoSpec "websocket"

/-- A concrete suspended stream whose poller and processor have drained. -/
def c6State : ESState :=
  { runningStream "webhook" with
    spec := { demoSpec "webhook" with suspended := true }
    processorDone := true
    pollerDone := true
    pollerRunning := false
    processorRunning := false }

/-- A concrete manager holding the drained suspended stream. -/
def c6Mgr : MgrState :=
  { streams := [("es-1", c6State)]
    subs := []
    db := [("es-1", demoSpec "webhook")]
    dbOpen := true
    closed := false }

/-- A concrete update body carrying `batchSize` 1000 and no type change. -/
def c7NewSpec : StreamInfo :=
  { demoSpec "websocket" with type := "", batchSize := 1000, websocket := none }

/-- A concrete manager holding one running stream and one subscription. -/
def c8Mgr : MgrState :=
  { streams := [("es-1", runningStream "webhook")]
    subs := [{ id := "sb-1", unsubscribed := false }]
    db := [("es-1", demoSpec "webhook")]
    dbOpen := true
    closed := false }

/-- A concrete spec exercising every default of `newEventStream`. -/
def c5Spec : StreamInfo :=
  { demoSpec "websocket" with
    batchSize := 2000
    batchTimeoutMS := 0
    blockedRetryDelaySec := 0
    timestampCacheSize := 0
    errorHandling := "BLOCK" }

/-- A concrete batch with two subscriptions, the first one occurring twice. -/
def c4Events : List EventEntry :=
  [{ subID := "sb-1", blockNumber := 10 },
   { subID := "sb-2", blockNumber := 11 },
   { subID := "sb-1", blockNumber := 12 }]

/-- The stored spec that `newEventStream` produces from `c5Spec`. -/
def c5Out : StreamInfo :=
  { c5Spec with
    batchSize := 1000
    batchTimeoutMS := 5000
    errorHandling := "block"
    blockedRetryDelaySec := 30
    timestampCacheSize := 1000 }

/-- The stream spec is untouched by `esStopHandlers`. -/
theorem esStopHandlers_spec (s : ESState) : (esStopHandlers s).spec = s.spec := rfl

/-- Every pipeline step preserves the in-flight accounting invariant. -/
theorem stepPipe_inv (bs : Nat) (s : PipeState) (st : PipeStep)
    (h : pipeInv s) : pipeInv (stepPipe bs s st) := by
  obtain ⟨h1, h2⟩ := h
  cases st with
  | recv e =>
    simp only [stepPipe]
    split
    all_goals refine ⟨?_, ?_⟩
    all_goals dsimp only
    all_goals try simp only [List.length_nil, List.map_append, List.sum_append,
      List.map_cons, List.map_nil, List.sum_cons, List.sum_nil,
      List.length_append, List.length_cons]
    all_goals omega
  | timeoutFlush =>
    simp only [stepPipe]
    split
    · exact ⟨h1, h2⟩
    · refine ⟨?_, ?_⟩
      all_goals dsimp only
      all_goals try simp only [List.length_nil, List.map_append, List.sum_append,
        List.map_cons, List.map_nil, List.sum_cons, List.sum_nil]
      all_goals omega
  | process ok =>
    cases hq : s.batchQueue with
    | nil =>
      simp only [stepPipe, hq]
      exact ⟨h1, h2⟩
    | cons b rest =>
      rw [hq] at h1
      simp only [List.map_cons, List.sum_cons] at h1
      simp only [stepPipe, hq]
      split
      all_goals refine ⟨?_, ?_⟩
      all_goals dsimp only
      all_goals omega

/-- The invariant holds after any finite run of pipeline steps. -/
theorem foldl_stepPipe_inv (bs : Nat) (steps : List PipeStep) (s : PipeState)
    (h : pipeInv s) : pipeInv (steps.foldl (stepPipe bs) s) := by
  induction steps generalizing s with
  | nil => exact h
  | cons st rest ih => exact ih _ (stepPipe_inv bs s st h)

/-- C2: for every finite sequence of dispatcher and processor steps starting
from a fresh stream, the `inFlight` counter equals the number of events
accepted from the event channel minus the number of events in batches that
`processBatch` has marked processed. -/
theorem inFlight_eq_accepted_sub_processed (bs : Nat) (steps : List PipeStep) :
    (runPipe bs steps).inFlight =
      (runPipe bs steps).accepted - (runPipe bs steps).processedEv := by
  have h := foldl_stepPipe_inv bs steps initPipeState (by exact ⟨rfl, rfl⟩)
  obtain ⟨h1, h2⟩ := h
  simp only [runPipe]
  omega

/-- Option.or with a some on the left. -/
theorem optOr_some {α : Type} (a : α) (o : Option α) : (some a).or o = some a := rfl

/-- Option.or with a none on the right. -/
theorem optOr_none_right {α : Type} (o : Option α) : o.or none = o := by
  cases o <;> rfl

/-- Option.or is associative. -/
theorem optOr_assoc {α : Type} (a b c : Option α) : (a.or b).or c = a.or (b.or c) := by
  cases a <;> rfl

/-- The last element of a cons is the last of the tail, or the head when the
tail is empty. -/
theorem getLast?_cons_eq_or {α : Type} (a : α) (l : List α) :
    (a :: l).getLast? = (l.getLast?).or (some a) := by
  cases l <;> rfl

/-- Writing key `k` makes it readable. -/
theorem lookupCb_insertLast_self (m : List (String × EventEntry)) (k : String)
    (v : EventEntry) : lookupCb (insertLast m k v) k = some v := by
  induction m with
  | nil => simp [insertLast, lookupCb]
  | cons p rest ih =>
    obtain ⟨k1, v1⟩ := p
    by_cases hk : k1 = k
    · subst hk
      simp [insertLast, lookupCb]
    · simp [insertLast, lookupCb, hk, ih]

/-- Writing key `k` leaves other keys unchanged. -/
theorem lookupCb_insertLast_ne (m : List (String × EventEntry)) (k k2 : String)
    (v : EventEntry) (h : k2 ≠ k) :
    lookupCb (insertLast m k v) k2 = lookupCb m k2 := by
  induction m with
  | nil => simp [insertLast, lookupCb, Ne.symm h]
  | cons p rest ih =>
    obtain ⟨k1, v1⟩ := p
    by_cases hk : k1 = k
    · subst hk
      simp [insertLast, lookupCb, Ne.symm h]
    · simp [insertLast, lookupCb, hk, ih]

/-- Folding the `cbs` insertion over a batch: the lookup of a subscription id
is the last event of that subscription in batch order, falling back to the
initial map. -/
theorem lookupCb_foldl (events : List EventEntry) (m : List (String × EventEntry))
    (sid : String) :
    lookupCb (events.foldl (fun acc e => insertLast acc e.subID e) m) sid =
      ((events.filter (fun e => decide (e.subID = sid))).getLast?).or (lookupCb m sid) := by
  induction events generalizing m with
  | nil => rfl
  | cons e rest ih =>
    simp only [List.foldl_cons]
    rw [ih (insertLast m e.subID e)]
    by_cases hs : e.subID = sid
    · rw [List.filter_cons, if_pos (by simp [hs]), getLast?_cons_eq_or, optOr_assoc]
      subst hs
      rw [lookupCb_insertLast_self]
      rfl
    · rw [List.filter_cons, if_neg (by simp [hs]),
        lookupCb_insertLast_ne m e.subID sid e (fun h => hs h.symm)]

/-- The `cbs` map of `processBatch` reads back, for every subscription id,
the last event of that subscription in batch order. -/
theorem lookupCb_lastPerSub (events : List EventEntry) (sid : String) :
    lookupCb (lastPerSub events) sid =
      (events.filter (fun e => decide (e.subID = sid))).getLast? := by
  have h := lookupCb_foldl events [] sid
  simpa [lastPerSub, lookupCb, optOr_none_right] using h

/-- Membership in the key list after one `cbs` insertion. -/
theorem mem_map_fst_insertLast (m : List (String × EventEntry)) (k x : String)
    (v : EventEntry) :
    x ∈ (insertLast m k v).map Prod.fst ↔ x ∈ m.map Prod.fst ∨ x = k := by
  induction m with
  | nil => simp [insertLast]
  | cons p rest ih =>
    obtain ⟨k1, v1⟩ := p
    by_cases hk : k1 = k
    · subst hk
      simp [insertLast]
      tauto
    · simp [insertLast, hk, ih]
      tauto

/-- One `cbs` insertion preserves distinctness of the keys. -/
theorem nodup_map_fst_insertLast (m : List (String × EventEntry)) (k : String)
    (v : EventEntry) (h : (m.map Prod.fst).Nodup) :
    ((insertLast m k v).map Prod.fst).Nodup := by
  induction m with
  | nil => simp [insertLast]
  | cons p rest ih =>
    obtain ⟨k1, v1⟩ := p
    simp only [List.map_cons, List.nodup_cons] at h
    obtain ⟨hnm, hnd⟩ := h
    by_cases hk : k1 = k
    · subst hk
      simp [insertLast, List.nodup_cons, hnm, hnd]
    · simp only [insertLast, if_neg hk, List.map_cons, List.nodup_cons]
      refine ⟨?_, ih hnd⟩
      intro hmem
      rcases (mem_map_fst_insertLast rest k k1 v).mp hmem with h1 | h1
      · exact hnm h1
      · exact hk h1

/-- The keys of the `cbs` map are distinct: each subscription id occurs at
most once. -/
theorem nodup_map_fst_lastPerSub (events : List EventEntry) :
    ((lastPerSub events).map Prod.fst).Nodup := by
  have key : ∀ m, (m.map Prod.fst).Nodup →
      (((events.foldl (fun acc e => insertLast acc e.subID e) m)).map Prod.fst).Nodup := by
    induction events with
    | nil => intro m h; exact h
    | cons e rest ih =>
      intro m h
      exact ih _ (nodup_map_fst_insertLast m e.subID e h)
  simpa [lastPerSub] using key [] (by simp)

/-- A key reads back from the `cbs` map exactly when it is among the keys. -/
theorem lookupCb_isSome_iff_mem (m : List (String × EventEntry)) (k : String) :
    (lookupCb m k).isSome = true ↔ k ∈ m.map Prod.fst := by
  induction m with
  | nil => simp [lookupCb]
  | cons p rest ih =>
    obtain ⟨k1, v1⟩ := p
    by_cases hk : k1 = k
    · subst hk
      simp [lookupCb]
    · simp [lookupCb, hk, ih, Ne.symm hk]

/-- The filtered batch of a subscription id is non-empty exactly when the id
occurs in the batch. -/
theorem filter_subID_ne_nil_iff (events : List EventEntry) (sid : String) :
    events.filter (fun e => decide (e.subID = sid)) ≠ [] ↔
      sid ∈ events.map EventEntry.subID := by
  induction events with
  | nil => simp
  | cons e rest ih =>
    by_cases hs : e.subID = sid
    · simp [List.filter_cons, hs]
    · simp [List.filter_cons, hs, ih, Ne.symm hs]

/-- A list has a last element exactly when it is non-empty. -/
theorem getLast?_isSome_iff {α : Type} (l : List α) :
    (l.getLast?).isSome = true ↔ l ≠ [] := by
  cases l <;> simp [List.getLast?]

/-- C4: for every non-empty batch marked processed while the stream is
neither suspended nor stopped, `processBatch` decrements `inFlight` by
exactly the number of events in the batch and invokes the `batchComplete`
callback exactly once per distinct subscription id occurring in the batch,
with the last event of that subscription in batch order (within the embedded
pipeline, this callback list is the only emission point of
`batchComplete`). -/
theorem processBatch_decrement_and_callbacks (inFlight : Nat)
    (events : List EventEntry) (hne : events ≠ [])
    (hle : events.length ≤ inFlight) :
    (processBatchFinish false true inFlight events).1 + events.length = inFlight
    ∧ (processBatchFinish false true inFlight events).2 =
        (lastPerSub events).map Prod.snd
    ∧ ((lastPerSub events).map Prod.fst).Nodup
    ∧ (∀ sid, sid ∈ (lastPerSub events).map Prod.fst ↔
        sid ∈ events.map EventEntry.subID)
    ∧ (∀ sid, lookupCb (lastPerSub events) sid =
        (events.filter (fun e => decide (e.subID = sid))).getLast?) := by
  have hnemp : events.isEmpty = false := by
    cases events with
    | nil => exact absurd rfl hne
    | cons e t => rfl
  refine ⟨?_, ?_, nodup_map_fst_lastPerSub events, ?_, fun sid => lookupCb_lastPerSub events sid⟩
  · simp only [processBatchFinish, hnemp, Bool.false_eq_true, if_false, if_true]
    omega
  · simp only [processBatchFinish, hnemp, Bool.false_eq_true, if_false, if_true]
  · intro sid
    rw [← lookupCb_isSome_iff_mem, lookupCb_lastPerSub, getLast?_isSome_iff,
      filter_subID_ne_nil_iff]

/-- Witness for C4 at a concrete three-event batch over two subscriptions. -/
theorem processBatch_decrement_and_callbacks_witness :
    (processBatchFinish false true 3 c4Events).1 + c4Events.length = 3
    ∧ lookupCb (lastPerSub c4Events) "sb-1" =
        (c4Events.filter (fun e => decide (e.subID = "sb-1"))).getLast? :=
  ⟨(processBatch_decrement_and_callbacks 3 c4Events (by decide) (by decide)).1,
   (processBatch_decrement_and_callbacks 3 c4Events (by decide)
      (by decide)).2.2.2.2 "sb-1"⟩

/-- Checkpoint map writes leave other keys unchanged. -/
theorem cpLookup_cpInsert_ne (cp : List (String × Nat)) (k k2 : String) (v : Nat)
    (h : k2 ≠ k) : cpLookup (cpInsert cp k v) k2 = cpLookup cp k2 := by
  induction cp with
  | nil => simp [cpInsert, cpLookup, Ne.symm h]
  | cons p rest ih =>
    obtain ⟨k1, v1⟩ := p
    by_cases hk : k1 = k
    · subst hk
      simp [cpInsert, cpLookup, Ne.symm h]
    · simp [cpInsert, cpLookup, hk, ih]

/-- The fold of the checkpoint-recording loop computes the disjunction of the
per-subscription change tests against the original checkpoint, provided the
subscription ids are distinct and the running map still agrees with the
original on the ids not yet visited. -/
theorem checkpointPass_fold (cp : List (String × Nat)) (subs : List (String × Nat))
    (b : Bool) (m : List (String × Nat))
    (hnd : (subs.map Prod.fst).Nodup)
    (hagree : ∀ p ∈ subs, cpLookup m p.1 = cpLookup cp p.1) :
    (subs.foldl checkpointStep (b, m)).1 =
      (b || subs.any (fun p =>
        decide (cpLookup cp p.1 = 0) || decide (¬ cpLookup cp p.1 = p.2))) := by
  induction subs generalizing b m with
  | nil => simp
  | cons p rest ih =>
    obtain ⟨sid, hwm⟩ := p
    simp only [List.map_cons, List.nodup_cons] at hnd
    obtain ⟨hmem, hnd1⟩ := hnd
    have hhead : cpLookup m sid = cpLookup cp sid :=
      hagree (sid, hwm) (List.mem_cons_self _ _)
    simp only [List.foldl_cons, checkpointStep]
    rw [ih _ _ hnd1 ?agree]
    case agree =>
      intro q hq
      rw [cpLookup_cpInsert_ne]
      · exact hagree q (List.mem_cons_of_mem _ hq)
      · intro hq1
        exact hmem (hq1 ▸ List.mem_map_of_mem Prod.fst hq)
    simp only [List.any_cons, hhead]
    simp only [Bool.or_assoc]

/-- C3 (amended): in every poller iteration with a loaded checkpoint,
`storeCheckpoint` is invoked exactly when some subscription of the stream
either has no positive checkpoint entry (the entry reads as 0) or has a
`blockHWM` differing from its entry; the zero-entry test fires even when the
HWM equals the (zero) entry. -/
theorem storeCheckpoint_iff_changed_amended (cp : List (String × Nat))
    (subs : List (String × Nat)) (hnd : (subs.map Prod.fst).Nodup) :
    (pollerCheckpointPass cp subs).1 = true ↔
      ∃ p ∈ subs, cpLookup cp p.1 = 0 ∨ cpLookup cp p.1 ≠ p.2 := by
  rw [pollerCheckpointPass, checkpointPass_fold cp subs false cp hnd (fun p _ => rfl)]
  simp [List.any_eq_true, Bool.or_eq_true, decide_eq_true_iff]

/-- Witness for the amended C3 at a concrete checkpoint and subscription
list. -/
theorem storeCheckpoint_iff_changed_amended_witness :
    (pollerCheckpointPass [("sb-1", 5)] [("sb-1", 6)]).1 = true ↔
      ∃ p ∈ [(("sb-1" : String), (6 : Nat))],
        cpLookup [("sb-1", 5)] p.1 = 0 ∨ cpLookup [("sb-1", 5)] p.1 ≠ p.2 :=
  storeCheckpoint_iff_changed_amended [("sb-1", 5)] [("sb-1", 6)] (by decide)

/-- C3 counterexample: with an empty loaded checkpoint and one subscription
whose `blockHWM` is 0, every subscription HWM equals its (zero) checkpoint
entry, yet the changed flag is set and `storeCheckpoint` is invoked. -/
theorem storeCheckpoint_zero_entry_cex :
    (pollerCheckpointPass [] [("sb-1", 0)]).1 = true
    ∧ ¬ ∃ p ∈ [(("sb-1" : String), (0 : Nat))], cpLookup [] p.1 ≠ p.2 := by
  constructor
  · decide
  · decide

/-- C9 (amended): when `allowPrivateIPs` is set the check short-circuits to
false without inspecting the address; otherwise, when the address has an
IPv4 form, the check answers whether the form lies in 0/8, 10/8, 127/8,
172.16/12, 192.168/16 or has first octet at least 224; when
`allowPrivateIPs` is not set and the address has no IPv4 form (`To4()` is
nil), the function panics on the slice index instead of returning a
boolean (`none` in the model). -/
theorem isAddressUnsafe_ranges_amended (allow : Bool) (ip : List Nat) :
    isAddressUnsafe allow ip =
      if allow then some false
      else (goTo4 ip).map (fun ip4 =>
        decide (ip4.getD 0 0 = 0 ∨ ip4.getD 0 0 = 10 ∨ ip4.getD 0 0 = 127 ∨
          (ip4.getD 0 0 = 172 ∧ 16 ≤ ip4.getD 1 0 ∧ ip4.getD 1 0 < 32) ∨
          (ip4.getD 0 0 = 192 ∧ ip4.getD 1 0 = 168) ∨ 224 ≤ ip4.getD 0 0)) := by
  cases allow with
  | true => rfl
  | false =>
    cases hg : goTo4 ip with
    | none => simp [isAddressUnsafe, hg]
    | some ip4 =>
      simp only [isAddressUnsafe, hg, Bool.false_eq_true, if_false, Option.map_some']
      refine congrArg some ?_
      rw [Bool.eq_iff_iff]
      simp only [Bool.or_eq_true, Bool.and_eq_true, decide_eq_true_eq]
      tauto

/-- C9 counterexample: for the plain IPv6 loopback address (no IPv4 form)
with `allowPrivateIPs` unset, `isAddressUnsafe` does not return a boolean:
`ip4[0]` panics on the nil slice returned by `To4()`. -/
theorem isAddressUnsafe_ipv6_none_cex :
    isAddressUnsafe false (List.replicate 15 0 ++ [1]) = none := by decide

/-- Every spec accepted by `newEventStream` is stored as the normalised spec
with the lowercased type. -/
theorem newEventStream_ok (spec out : StreamInfo)
    (h : newEventStream spec = Except.ok out) :
    out = { normalizeSpec spec with type := goToLower (normalizeSpec spec).type } := by
  unfold newEventStream at h
  simp only [newWebSocketAction] at h
  split at h
  · simp at h
  · split at h
    · split at h
      · simp at h
      · injection h with h1
        exact h1.symm
    · split at h
      · split at h
        · split at h
          · simp at h
          · injection h with h1
            exact h1.symm
        · injection h with h1
          exact h1.symm
      · simp at h

/-- C5: for every spec accepted by `newEventStream`, the stored spec has
`batchSize` 0 coerced to 1 and values above 1000 clamped to 1000,
`batchTimeoutMS` 0 defaulted to 5000, `blockedRetryDelaySec` 0 defaulted to
30, `timestampCacheSize` 0 defaulted to 1000, and `errorHandling` set to
`block` exactly when the supplied value matches `block` case-insensitively,
and to `skip` otherwise. -/
theorem newEventStream_defaults (spec out : StreamInfo)
    (h : newEventStream spec = Except.ok out) :
    out.batchSize = (if spec.batchSize = 0 then 1
      else if spec.batchSize > 1000 then 1000 else spec.batchSize)
    ∧ out.batchTimeoutMS = (if spec.batchTimeoutMS = 0 then 5000 else spec.batchTimeoutMS)
    ∧ out.blockedRetryDelaySec =
        (if spec.blockedRetryDelaySec = 0 then 30 else spec.blockedRetryDelaySec)
    ∧ out.timestampCacheSize =
        (if spec.timestampCacheSize = 0 then 1000 else spec.timestampCacheSize)
    ∧ out.errorHandling =
        (if (goToLower spec.errorHandling) = "block" then "block" else "skip") := by
  have hout := newEventStream_ok spec out h
  subst hout
  refine ⟨?_, ?_, ?_, ?_, ?_⟩
  all_goals simp [normalizeSpec, MaxBatchSize, ErrorHandlingBlock, ErrorHandlingSkip]

/-- Witness for C5 at a concrete spec exercising every default. -/
theorem newEventStream_defaults_witness :
    c5Out.batchSize = (if c5Spec.batchSize = 0 then 1
      else if c5Spec.batchSize > 1000 then 1000 else c5Spec.batchSize)
    ∧ c5Out.batchTimeoutMS = (if c5Spec.batchTimeoutMS = 0 then 5000 else c5Spec.batchTimeoutMS)
    ∧ c5Out.blockedRetryDelaySec =
        (if c5Spec.blockedRetryDelaySec = 0 then 30 else c5Spec.blockedRetryDelaySec)
    ∧ c5Out.timestampCacheSize =
        (if c5Spec.timestampCacheSize = 0 then 1000 else c5Spec.timestampCacheSize)
    ∧ c5Out.errorHandling =
        (if (goToLower c5Spec.errorHandling) = "block" then "block" else "skip") :=
  newEventStream_defaults c5Spec c5Out (by rfl)

/-- The webhook section of `update` leaves the goroutine and update flags of
the stream untouched. -/
theorem esUpdateWebhook_flags (s : ESState) (n : StreamInfo) :
    flagsOf (esUpdateWebhook s n).1 = flagsOf s := by
  unfold esUpdateWebhook
  split
  · rfl
  · split
    · rfl
    · split
      · rfl
      · rfl

/-- The websocket section of `update` leaves the goroutine and update flags
of the stream untouched. -/
theorem esUpdateWebsocket_flags (s : ESState) (n : StreamInfo) :
    flagsOf (esUpdateWebsocket s n).1 = flagsOf s := by
  unfold esUpdateWebsocket
  split
  · rfl
  · dsimp only
    split
    · rfl
    · rfl

/-- The scalar-field section of `update` leaves the goroutine and update
flags of the stream untouched. -/
theorem esUpdateFields_flags (s : ESState) (n : StreamInfo) :
    flagsOf (esUpdateFields s n) = flagsOf s := rfl

/-- An error return of the `update` body leaves the goroutine and update
flags exactly as they were when the body started. -/
theorem esUpdateBody_error_flags (s : ESState) (n : StreamInfo) (s1 : ESState)
    (e : ESError) (h : esUpdateBody s n = (s1, some e)) :
    flagsOf s1 = flagsOf s := by
  unfold esUpdateBody at h
  split at h
  · cases h
    rfl
  · rcases hw : esUpdateWebhook s n with ⟨sa, oa⟩
    rw [hw] at h
    cases oa with
    | some ea =>
      cases h
      have hf := esUpdateWebhook_flags s n
      rw [hw] at hf
      exact hf
    | none =>
      dsimp only at h
      rcases hws : esUpdateWebsocket sa n with ⟨sb, ob⟩
      rw [hws] at h
      cases ob with
      | some eb =>
        cases h
        have h1 := esUpdateWebhook_flags s n
        have h2 := esUpdateWebsocket_flags sa n
        rw [hw] at h1
        rw [hws] at h2
        exact h2.trans h1
      | none => cases h

/-- C10: whenever `eventStream.update` returns an error,
`postUpdateStream` is never reached: `updateInProgress` stays set, the
`updateInterrupt` channel stays closed, and none of the poller, dispatcher
or processor goroutines are restarted, so the stream delivers no further
events until the process restarts. -/
theorem update_error_leaves_stream_stopped (s : ESState) (n : StreamInfo)
    (s1 : ESState) (e : ESError)
    (h : esUpdate s n = Except.ok (s1, some e)) :
    s1.updateInProgress = true ∧ s1.interruptClosed = true
    ∧ s1.pollerRunning = false ∧ s1.processorRunning = false
    ∧ s1.dispatcherRunning = false := by
  unfold esUpdate at h
  split at h
  · simp at h
  · injection h with hbody
    have hf := esUpdateBody_error_flags (esStopHandlers s) n s1 e hbody
    have hval : flagsOf s1 = (true, true, false, false, false) := hf
    simp only [flagsOf, Prod.mk.injEq] at hval
    exact ⟨hval.1, hval.2.1, hval.2.2.1, hval.2.2.2.1, hval.2.2.2.2⟩

/-- Witness for C10: a type-changing update on a concrete running stream. -/
theorem update_error_leaves_stream_stopped_witness :
    (esStopHandlers (runningStream "webhook")).updateInProgress = true
    ∧ (esStopHandlers (runningStream "webhook")).interruptClosed = true
    ∧ (esStopHandlers (runningStream "webhook")).pollerRunning = false
    ∧ (esStopHandlers (runningStream "webhook")).processorRunning = false
    ∧ (esStopHandlers (runningStream "webhook")).dispatcherRunning = false :=
  update_error_leaves_stream_stopped (runningStream "webhook") c1NewSpec
    (esStopHandlers (runningStream "webhook")) ESError.cannotUpdateType (by rfl)

/-- C1 (amended): for every running stream (interrupt channel open) and
every update spec with a non-empty `type` differing from the stream type,
`UpdateStream` returns HTTP status 500 (not 400); the stream `StreamInfo`
fields and its persisted record are unchanged, but the running state is not:
the handler goroutines remain stopped and `updateInProgress` remains set. -/
theorem updateStream_type_change_amended (m : MgrState) (streamId : String)
    (s : ESState) (n : StreamInfo)
    (hs : lookupES m.streams streamId = some s)
    (hic : s.interruptClosed = false)
    (h1 : ¬ n.type = "") (h2 : ¬ n.type = s.spec.type) :
    UpdateStream m streamId (some n) =
      Except.ok ({ m with streams := replaceES m.streams streamId (esStopHandlers s) },
        Except.error { cause := RestCause.streamError ESError.cannotUpdateType, status := 500 })
    ∧ (esStopHandlers s).spec = s.spec
    ∧ flagsOf (esStopHandlers s) = (true, true, false, false, false) := by
  refine ⟨?_, rfl, rfl⟩
  have hup : esUpdate s n =
      Except.ok (esStopHandlers s, some ESError.cannotUpdateType) := by
    unfold esUpdate
    rw [if_neg (by simp [hic])]
    unfold esUpdateBody
    rw [if_pos ⟨h1, h2⟩]
  unfold UpdateStream
  simp only [hs, hup]

/-- Witness for the amended C1: a concrete webhook stream updated with type
`websocket`. -/
theorem updateStream_type_change_amended_witness :
    UpdateStream c1Mgr "es-1" (some c1NewSpec) =
      Except.ok ({ c1Mgr with streams := replaceES c1Mgr.streams "es-1" (esStopHandlers (runningStream "webhook")) },
        Except.error { cause := RestCause.streamError ESError.cannotUpdateType, status := 500 })
    ∧ (esStopHandlers (runningStream "webhook")).spec = (runningStream "webhook").spec
    ∧ flagsOf (esStopHandlers (runningStream "webhook")) = (true, true, false, false, false) :=
  updateStream_type_change_amended c1Mgr "es-1" (runningStream "webhook") c1NewSpec
    (by rfl) (by rfl) (by decide) (by decide)

/-- C1 counterexample: at a concrete running webhook stream and an update
body of type `websocket`, `UpdateStream` answers 500 rather than the claimed
400, and the running state is mutated: the poller was running before the
call and is stopped after it. -/
theorem updateStream_type_change_returns_500_cex :
    updRestStatus (UpdateStream c1Mgr "es-1" (some c1NewSpec)) = some 500
    ∧ ¬ updRestStatus (UpdateStream c1Mgr "es-1" (some c1NewSpec)) = some 400
    ∧ (lookupES c1Mgr.streams "es-1").map ESState.pollerRunning = some true
    ∧ (updMgrAfter (UpdateStream c1Mgr "es-1" (some c1NewSpec))).map
        (fun m1 => (lookupES m1.streams "es-1").map ESState.pollerRunning) =
      some (some false) := by
  refine ⟨by decide, by decide, by decide, by decide⟩

/-- C6: `resume` fails exactly when the processor and poller have not both
drained (`processorDone && pollerDone`), and `ResumeStream` surfaces that
failure as HTTP 500; when both are drained, `resume` clears `Suspended`,
resets both done flags, reopens the interrupt channel and restarts the
poller and the processor (the dispatcher is untouched), returning no
error. -/
theorem resume_requires_done_flags (s : ESState) (m : MgrState) (streamId : String)
    (hm : lookupES m.streams streamId = some s) :
    ((esResume s).2.isSome = true ↔ ¬(s.processorDone = true ∧ s.pollerDone = true))
    ∧ (s.processorDone = true → s.pollerDone = true →
        esResume s = ({ s with
          spec := { s.spec with suspended := false }
          processorDone := false
          pollerDone := false
          interruptClosed := false
          pollerRunning := true
          processorRunning := true }, none))
    ∧ (¬(s.processorDone = true ∧ s.pollerDone = true) →
        (ResumeStream m streamId).2 =
          Except.error { cause := RestCause.streamError ESError.resumeActive, status := 500 }) := by
  refine ⟨?_, ?_, ?_⟩
  all_goals
    cases hpd : s.processorDone <;> cases hpl : s.pollerDone <;>
      simp [esResume, ResumeStream, hm, hpd, hpl]

/-- Witness for C6 at a concrete drained suspended stream. -/
theorem resume_requires_done_flags_witness :
    ((esResume c6State).2.isSome = true ↔
      ¬(c6State.processorDone = true ∧ c6State.pollerDone = true))
    ∧ (c6State.processorDone = true → c6State.pollerDone = true →
        esResume c6State = ({ c6State with
          spec := { c6State.spec with suspended := false }
          processorDone := false
          pollerDone := false
          interruptClosed := false
          pollerRunning := true
          processorRunning := true }, none))
    ∧ (¬(c6State.processorDone = true ∧ c6State.pollerDone = true) →
        (ResumeStream c6Mgr "es-1").2 =
          Except.error { cause := RestCause.streamError ESError.resumeActive, status := 500 }) :=
  resume_requires_done_flags c6State c6Mgr "es-1" (by rfl)

/-- C7 (code bug): an otherwise-successful update carrying `batchSize` 1000,
the documented maximum that create clamps to, is silently ignored because
the update path requires `newSpec.BatchSize < MaxBatchSize` (strict); the
same update with 999 is applied. -/
theorem update_batchSize_1000_ignored :
    c7NewSpec.batchSize = 1000
    ∧ (runningStream "websocket").spec.batchSize = 1
    ∧ updOkBatchSize (esUpdate (runningStream "websocket") c7NewSpec) = some 1
    ∧ updOkBatchSize (esUpdate (runningStream "websocket")
        { c7NewSpec with batchSize := 999 }) = some 999 := by
  refine ⟨by decide, by decide, by decide, by decide⟩

/-- C8 (code bug): a first `Close` of a manager holding one stream
completes, but a second `Close` panics in Go (`close` of the already-closed
event channel in `eventStream.stop`) instead of being the claimed idempotent
no-op. -/
theorem close_second_call_panics :
    panicOf (mgrClose c8Mgr) = none
    ∧ panicOf (mgrClose c8Mgr >>= mgrClose) = some GoPanic.closeOfClosedChannel := by
  refine ⟨by decide, by decide⟩
